import Mathlib

/-!
Verification of the Logo-and-Banner image pipeline.

The development shallowly embeds the two core modules of the repository:

* `logoProcessor.js` — logo loading (`loadLogo`), dominant-color extraction
  (`extractDominantColor`) and luminance-threshold binarization
  (`convertToBitmap`);
* `bannerGenerator.js` (with its `utils.js` helpers) — image clamping
  (`clampImageToMax`), background drawing (`drawBackground` /
  `drawTemplateBackground`), logo layout (`calculateLogoPosition`) and the
  overall composition order of `generateBanner`.

Pixels are RGBA byte quadruples; JavaScript numbers are modelled by exact
rationals (`ℚ`), `Math.round` by Mathlib's `round` (both round half towards
`+∞` on the nonnegative inputs that occur here), and `Math.max` by `max`.
Canvas plumbing (contexts, data URLs, promises) carries no pixel arithmetic
and is not modelled; each embedded function is the pixel-level or
geometry-level computation the source performs.
-/

namespace LogoBanner

/-- An RGBA pixel of a canvas `ImageData` buffer: four 8-bit channels,
`r g b a ∈ [0, 255]`. -/
structure Pixel where
  r : ℕ
  g : ℕ
  b : ℕ
  a : ℕ
deriving DecidableEq, Repr

/-- The pure-black, fully opaque pixel written by `convertToBitmap`. -/
def blackPixel : Pixel := ⟨0, 0, 0, 255⟩

/-- The pure-white, fully opaque pixel written by `convertToBitmap`. -/
def whitePixel : Pixel := ⟨255, 255, 255, 255⟩

/-- The luminance `0.299*R + 0.587*G + 0.114*B` of `logoProcessor.js:170`,
computed exactly as `(299*R + 587*G + 114*B) / 1000`. -/
def luminance (p : Pixel) : ℚ := (299 * p.r + 587 * p.g + 114 * p.b : ℕ) / 1000

/-- The per-pixel body of the loop of `convertToBitmap`
(`logoProcessor.js:157-185`): alpha below 64 becomes opaque white; otherwise
the pixel becomes opaque black when `luminance < threshold * 255` and opaque
white when not. -/
def bitmapPixel (threshold : ℚ) (p : Pixel) : Pixel :=
  if p.a < 64 then whitePixel
  else if luminance p < threshold * 255 then blackPixel
  else whitePixel

/-- `convertToBitmap` (`logoProcessor.js:133-198`): the loop applies
`bitmapPixel` to every pixel of the decoded image. -/
def convertToBitmap (threshold : ℚ) (img : List Pixel) : List Pixel :=
  img.map (bitmapPixel threshold)

theorem luminance_blackPixel : luminance blackPixel = 0 := by
  norm_num [luminance, blackPixel]

theorem luminance_whitePixel : luminance whitePixel = 255 := by
  norm_num [luminance, whitePixel]

theorem bitmapPixel_mem_bw (t : ℚ) (p : Pixel) :
    bitmapPixel t p = blackPixel ∨ bitmapPixel t p = whitePixel := by
  unfold bitmapPixel
  split_ifs <;> simp

/-- C1: every pixel produced by `convertToBitmap` is exactly pure black
`(0,0,0,255)` or pure white `(255,255,255,255)`; every source pixel whose
alpha is below the hard floor 64 maps to pure white; and every output pixel
has alpha 255. -/
theorem convertToBitmap_pure_bw (t : ℚ) (img : List Pixel)
    (h0 : 0 < t) (h1 : t < 1) :
    (∀ q ∈ convertToBitmap t img,
        (q = blackPixel ∨ q = whitePixel) ∧ q.a = 255) ∧
    (∀ p ∈ img, p.a < 64 → bitmapPixel t p = whitePixel) := by
  constructor
  · intro q hq
    simp only [convertToBitmap, List.mem_map] at hq
    obtain ⟨p, _, rfl⟩ := hq
    refine ⟨bitmapPixel_mem_bw t p, ?_⟩
    rcases bitmapPixel_mem_bw t p with h | h <;> rw [h] <;> rfl
  · intro p _ hp
    unfold bitmapPixel
    rw [if_pos hp]

/-- Closed instance of `convertToBitmap_pure_bw` at `t = 1/2` on a
three-pixel image (a transparent red, an opaque dark grey, an opaque
light grey). -/
theorem convertToBitmap_pure_bw_witness :
    (0 : ℚ) < 1/2 ∧ (1/2 : ℚ) < 1 ∧
    ((∀ q ∈ convertToBitmap (1/2) [⟨200, 0, 0, 10⟩, ⟨30, 30, 30, 255⟩, ⟨220, 220, 220, 255⟩],
        (q = blackPixel ∨ q = whitePixel) ∧ q.a = 255) ∧
     (∀ p ∈ ([⟨200, 0, 0, 10⟩, ⟨30, 30, 30, 255⟩, ⟨220, 220, 220, 255⟩] : List Pixel),
        p.a < 64 → bitmapPixel (1/2) p = whitePixel)) :=
  ⟨by norm_num, by norm_num,
    convertToBitmap_pure_bw (1/2) [⟨200, 0, 0, 10⟩, ⟨30, 30, 30, 255⟩, ⟨220, 220, 220, 255⟩]
      (by norm_num) (by norm_num)⟩

theorem bitmapPixel_fixes_blackPixel (t : ℚ) (h0 : 0 < t) :
    bitmapPixel t blackPixel = blackPixel := by
  unfold bitmapPixel
  rw [if_neg (by norm_num [blackPixel]), if_pos]
  rw [luminance_blackPixel]
  positivity

theorem bitmapPixel_fixes_whitePixel (t : ℚ) (h1 : t < 1) :
    bitmapPixel t whitePixel = whitePixel := by
  unfold bitmapPixel
  rw [if_neg (by norm_num [whitePixel]), if_neg]
  rw [luminance_whitePixel, not_lt]
  nlinarith

/-- C2: `convertToBitmap` is idempotent on its own output: on an image whose
pixels are all pure black or pure white (fully opaque), re-binarizing with
any threshold in `(0,1)` returns the identical pixel list — black stays black
since luminance 0 is below `t*255`, white stays white since luminance 255 is
not below `t*255`. -/
theorem convertToBitmap_idempotent (t : ℚ) (img : List Pixel)
    (h0 : 0 < t) (h1 : t < 1)
    (hbw : ∀ p ∈ img, p = blackPixel ∨ p = whitePixel) :
    convertToBitmap t img = img := by
  unfold convertToBitmap
  induction img with
  | nil => rfl
  | cons p rest ih =>
    have hp := hbw p (List.mem_cons_self p rest)
    have hrest : ∀ q ∈ rest, q = blackPixel ∨ q = whitePixel := fun q hq =>
      hbw q (List.mem_cons_of_mem p hq)
    simp only [List.map_cons, ih hrest, List.cons.injEq, and_true]
    rcases hp with h | h <;> rw [h]
    · exact bitmapPixel_fixes_blackPixel t h0
    · exact bitmapPixel_fixes_whitePixel t h1

/-- Closed instance of `convertToBitmap_idempotent` at `t = 3/4` on a
two-pixel black/white image. -/
theorem convertToBitmap_idempotent_witness :
    convertToBitmap (3/4) [blackPixel, whitePixel] = [blackPixel, whitePixel] :=
  convertToBitmap_idempotent (3/4) [blackPixel, whitePixel]
    (by norm_num) (by norm_num) (by decide)

/-- `clampImageToMax` (`utils.js:296-321`): with `m = Math.max(w, h)`, when
`m > maxSide` the scale `s = maxSide / m` is applied to both sides and each
is rounded with `Math.round`; otherwise the dimensions pass through
unchanged. Output dimensions are integers (canvas sizes). -/
def clampImageToMax (w h maxSide : ℕ) : ℤ × ℤ :=
  let m := max w h
  if maxSide < m then
    let s : ℚ := (maxSide : ℚ) / (m : ℚ)
    (round ((w : ℚ) * s), round ((h : ℚ) * s))
  else ((w : ℤ), (h : ℤ))

theorem round_le_round {x y : ℚ} (h : x ≤ y) : round x ≤ round y := by
  rw [round_eq, round_eq]
  exact Int.floor_le_floor (by linarith)

theorem round_scaled_le (n m : ℕ) (hnm : n ≤ m) (hm : 800 < m) :
    round ((n : ℚ) * ((800 : ℚ) / (m : ℚ))) ≤ (n : ℤ) ∧
    round ((n : ℚ) * ((800 : ℚ) / (m : ℚ))) ≤ 800 := by
  have hm0 : (0 : ℚ) < (m : ℚ) := by exact_mod_cast Nat.lt_of_lt_of_le (by norm_num) hm.le
  have hs1 : (800 : ℚ) / (m : ℚ) ≤ 1 := by
    rw [div_le_one hm0]
    exact_mod_cast hm.le
  have hq_n : (n : ℚ) * ((800 : ℚ) / (m : ℚ)) ≤ (n : ℚ) := by
    calc (n : ℚ) * ((800 : ℚ) / (m : ℚ)) ≤ (n : ℚ) * 1 := by
          exact mul_le_mul_of_nonneg_left hs1 (by positivity)
      _ = (n : ℚ) := mul_one _
  have hq_800 : (n : ℚ) * ((800 : ℚ) / (m : ℚ)) ≤ 800 := by
    rw [mul_div_assoc'] at *
    rw [div_le_iff hm0]
    have : (n : ℚ) ≤ (m : ℚ) := by exact_mod_cast hnm
    nlinarith
  constructor
  · calc round ((n : ℚ) * ((800 : ℚ) / (m : ℚ))) ≤ round ((n : ℚ)) := round_le_round hq_n
      _ = (n : ℤ) := round_natCast n
  · calc round ((n : ℚ) * ((800 : ℚ) / (m : ℚ))) ≤ round ((800 : ℚ)) := round_le_round hq_800
      _ = 800 := by norm_num [round_eq]

theorem round_scaled_self (m : ℕ) (hm : 800 < m) :
    round ((m : ℚ) * ((800 : ℚ) / (m : ℚ))) = 800 := by
  have hm0 : ((m : ℚ)) ≠ 0 := by
    have : (0 : ℚ) < (m : ℚ) := by exact_mod_cast Nat.lt_of_lt_of_le (by norm_num) hm.le
    exact ne_of_gt this
  rw [mul_div_assoc', mul_comm, mul_div_assoc, div_self hm0, mul_one]
  norm_num [round_eq]

/-- C3: `clampImageToMax` at `maxSide = 800` passes dimensions through
unchanged when the longer side is at most 800; when the longer side exceeds
800 the output's longer side is exactly 800 and each side is the
aspect-preserving value `side * 800 / m` rounded to the nearest integer
(hence within 1 of exact proportionality); and neither output dimension ever
exceeds its input dimension (no upscaling). -/
theorem clampImageToMax_spec (w h : ℕ) (hw : 0 < w) (hh : 0 < h) :
    (max w h ≤ 800 → clampImageToMax w h 800 = ((w : ℤ), (h : ℤ))) ∧
    (800 < max w h →
      max (clampImageToMax w h 800).1 (clampImageToMax w h 800).2 = 800 ∧
      (clampImageToMax w h 800).1 = round ((w : ℚ) * ((800 : ℚ) / ((max w h : ℕ) : ℚ))) ∧
      (clampImageToMax w h 800).2 = round ((h : ℚ) * ((800 : ℚ) / ((max w h : ℕ) : ℚ))) ∧
      |((clampImageToMax w h 800).1 : ℚ) - (w : ℚ) * ((800 : ℚ) / ((max w h : ℕ) : ℚ))| ≤ 1 ∧
      |((clampImageToMax w h 800).2 : ℚ) - (h : ℚ) * ((800 : ℚ) / ((max w h : ℕ) : ℚ))| ≤ 1) ∧
    (clampImageToMax w h 800).1 ≤ (w : ℤ) ∧ (clampImageToMax w h 800).2 ≤ (h : ℤ) := by
  by_cases hbig : 800 < max w h
  · have hne : ¬ (max w h ≤ 800) := not_le.mpr hbig
    have hdef : clampImageToMax w h 800 =
        (round ((w : ℚ) * ((800 : ℚ) / ((max w h : ℕ) : ℚ))),
         round ((h : ℚ) * ((800 : ℚ) / ((max w h : ℕ) : ℚ)))) := by
      simp [clampImageToMax, hbig]
    have hw_le := round_scaled_le w (max w h) (le_max_left w h) hbig
    have hh_le := round_scaled_le h (max w h) (le_max_right w h) hbig
    have habs : ∀ n : ℕ,
        |((round ((n : ℚ) * ((800 : ℚ) / ((max w h : ℕ) : ℚ)))) : ℚ) -
          (n : ℚ) * ((800 : ℚ) / ((max w h : ℕ) : ℚ))| ≤ 1 := by
      intro n
      rw [abs_sub_comm]
      calc |(n : ℚ) * ((800 : ℚ) / ((max w h : ℕ) : ℚ)) -
              (round ((n : ℚ) * ((800 : ℚ) / ((max w h : ℕ) : ℚ))) : ℚ)| ≤ 1/2 :=
            abs_sub_round _
        _ ≤ 1 := by norm_num
    refine ⟨fun hc => absurd hc hne, fun _ => ?_, ?_, ?_⟩
    · refine ⟨?_, by rw [hdef], by rw [hdef], by rw [hdef]; exact habs w, by rw [hdef]; exact habs h⟩
      rcases max_choice w h with hm | hm
      · rw [hdef]
        have hb : 800 < w := hm ▸ hbig
        have h1 : round ((w : ℚ) * ((800 : ℚ) / ((max w h : ℕ) : ℚ))) = 800 := by
          rw [hm]
          exact round_scaled_self w hb
        simp only [h1]
        exact max_eq_left hh_le.2
      · rw [hdef]
        have hb : 800 < h := hm ▸ hbig
        have h2 : round ((h : ℚ) * ((800 : ℚ) / ((max w h : ℕ) : ℚ))) = 800 := by
          rw [hm]
          exact round_scaled_self h hb
        simp only [h2]
        exact max_eq_right hw_le.2
    · rw [hdef]
      exact hw_le.1
    · rw [hdef]
      exact hh_le.1
  · have hdef : clampImageToMax w h 800 = ((w : ℤ), (h : ℤ)) := by
      simp [clampImageToMax, hbig]
    exact ⟨fun _ => hdef, fun hc => absurd hc hbig, by rw [hdef], by rw [hdef]⟩

/-- Closed instance of `clampImageToMax_spec`: a 1600×1000 image clamps to
800×500 (longer side exactly 800), and a 640×480 image passes through. -/
theorem clampImageToMax_spec_witness :
    (max 1600 1000 ≤ 800 → clampImageToMax 1600 1000 800 = ((1600 : ℤ), (1000 : ℤ))) ∧
    (800 < max 1600 1000 →
      max (clampImageToMax 1600 1000 800).1 (clampImageToMax 1600 1000 800).2 = 800 ∧
      (clampImageToMax 1600 1000 800).1 =
        round ((1600 : ℚ) * ((800 : ℚ) / ((max 1600 1000 : ℕ) : ℚ))) ∧
      (clampImageToMax 1600 1000 800).2 =
        round ((1000 : ℚ) * ((800 : ℚ) / ((max 1600 1000 : ℕ) : ℚ))) ∧
      |((clampImageToMax 1600 1000 800).1 : ℚ) -
        (1600 : ℚ) * ((800 : ℚ) / ((max 1600 1000 : ℕ) : ℚ))| ≤ 1 ∧
      |((clampImageToMax 1600 1000 800).2 : ℚ) -
        (1000 : ℚ) * ((800 : ℚ) / ((max 1600 1000 : ℕ) : ℚ))| ≤ 1) ∧
    (clampImageToMax 1600 1000 800).1 ≤ (1600 : ℤ) ∧
    (clampImageToMax 1600 1000 800).2 ≤ (1000 : ℤ) :=
  clampImageToMax_spec 1600 1000 (by norm_num) (by norm_num)

/-- The shared banner configuration object built in `app.js:18-39` and
consumed by `bannerGenerator.js`; numeric fields are exact rationals. -/
structure Config where
  template : String
  w : ℚ
  h : ℚ
  bg : String
  grad : String
  text : String
  tpos : String
  tcol : String
  fs : ℚ
  logoPos : String
  logoSizePct : ℚ
  mode : String
deriving DecidableEq, Repr

/-- The intrinsic dimensions of the loaded logo image element used by
`calculateLogoPosition`. -/
structure Img where
  width : ℚ
  height : ℚ
deriving DecidableEq, Repr

/-- The `{x, y, width, height}` object returned by `calculateLogoPosition`.
The JS `switch` has no default branch, so `x`/`y` stay `undefined` for an
unknown `logoPos`; `undefined` is modelled by `none`. -/
structure Placement where
  x : Option ℚ
  y : Option ℚ
  width : ℚ
  height : ℚ
deriving DecidableEq, Repr

/-- The sizing phase of `calculateLogoPosition`
(`bannerGenerator.js:167-184`): bounds `maxW`/`maxH` from the size
percentage, then width-constrained fit when `maxW / aspect ≤ maxH`, else
height-constrained fit. -/
def fitSize (config : Config) (img : Img) : ℚ × ℚ :=
  let scale := config.logoSizePct / 100
  let maxW := config.w * scale
  let maxH := config.h * scale
  let aspect := img.width / img.height
  if maxW / aspect ≤ maxH then (maxW, maxW / aspect) else (maxH * aspect, maxH)

/-- `calculateLogoPosition` (`bannerGenerator.js:167-235`): the fitted size
followed by the 9-case `switch` on `config.logoPos` with edge padding 20. -/
def calculateLogoPosition (config : Config) (img : Img) : Placement :=
  let logoWidth := (fitSize config img).1
  let logoHeight := (fitSize config img).2
  let pad : ℚ := 20
  let xy : Option ℚ × Option ℚ :=
    if config.logoPos = "left-top" then (some pad, some pad)
    else if config.logoPos = "top-middle" then
      (some ((config.w - logoWidth) / 2), some pad)
    else if config.logoPos = "right-top" then
      (some (config.w - logoWidth - pad), some pad)
    else if config.logoPos = "left-middle" then
      (some pad, some ((config.h - logoHeight) / 2))
    else if config.logoPos = "center" then
      (some ((config.w - logoWidth) / 2), some ((config.h - logoHeight) / 2))
    else if config.logoPos = "right-middle" then
      (some (config.w - logoWidth - pad), some ((config.h - logoHeight) / 2))
    else if config.logoPos = "left-bottom" then
      (some pad, some (config.h - logoHeight - pad))
    else if config.logoPos = "bottom-middle" then
      (some ((config.w - logoWidth) / 2), some (config.h - logoHeight - pad))
    else if config.logoPos = "right-bottom" then
      (some (config.w - logoWidth - pad), some (config.h - logoHeight - pad))
    else (none, none)
  ⟨xy.1, xy.2, logoWidth, logoHeight⟩

theorem calculateLogoPosition_width_eq (config : Config) (img : Img) :
    (calculateLogoPosition config img).width = (fitSize config img).1 := rfl

theorem calculateLogoPosition_height_eq (config : Config) (img : Img) :
    (calculateLogoPosition config img).height = (fitSize config img).2 := rfl

/-- C4: with positive canvas dimensions, `logoSizePct ∈ (0,100]` and a
positive-dimension image, the fitted logo never exceeds the
`canvas * logoSizePct/100` bounds; the width-constrained branch is taken
exactly when `maxW / aspect ≤ maxH` and the height-constrained branch
otherwise; and the fitted size preserves the image's aspect ratio. -/
theorem calculateLogoPosition_fit (cfg : Config) (img : Img)
    (hw : 0 < cfg.w) (hh : 0 < cfg.h)
    (hp0 : 0 < cfg.logoSizePct) (hp1 : cfg.logoSizePct ≤ 100)
    (hiw : 0 < img.width) (hih : 0 < img.height) :
    (calculateLogoPosition cfg img).width ≤ cfg.w * (cfg.logoSizePct / 100) ∧
    (calculateLogoPosition cfg img).height ≤ cfg.h * (cfg.logoSizePct / 100) ∧
    ((cfg.w * (cfg.logoSizePct / 100)) / (img.width / img.height) ≤
        cfg.h * (cfg.logoSizePct / 100) →
      (calculateLogoPosition cfg img).width = cfg.w * (cfg.logoSizePct / 100) ∧
      (calculateLogoPosition cfg img).height =
        (cfg.w * (cfg.logoSizePct / 100)) / (img.width / img.height)) ∧
    (¬ ((cfg.w * (cfg.logoSizePct / 100)) / (img.width / img.height) ≤
        cfg.h * (cfg.logoSizePct / 100)) →
      (calculateLogoPosition cfg img).height = cfg.h * (cfg.logoSizePct / 100) ∧
      (calculateLogoPosition cfg img).width =
        cfg.h * (cfg.logoSizePct / 100) * (img.width / img.height)) ∧
    (calculateLogoPosition cfg img).width / (calculateLogoPosition cfg img).height =
      img.width / img.height := by
  have ha : 0 < img.width / img.height := div_pos hiw hih
  have hmaxW : 0 < cfg.w * (cfg.logoSizePct / 100) := by positivity
  have hmaxH : 0 < cfg.h * (cfg.logoSizePct / 100) := by positivity
  rw [calculateLogoPosition_width_eq, calculateLogoPosition_height_eq]
  by_cases hfit : (cfg.w * (cfg.logoSizePct / 100)) / (img.width / img.height) ≤
      cfg.h * (cfg.logoSizePct / 100)
  · have hdef : fitSize cfg img =
        (cfg.w * (cfg.logoSizePct / 100),
         (cfg.w * (cfg.logoSizePct / 100)) / (img.width / img.height)) := by
      simp only [fitSize, if_pos hfit]
    rw [hdef]
    refine ⟨le_refl _, hfit, fun _ => ⟨rfl, rfl⟩, fun hc => absurd hfit hc, ?_⟩
    rw [div_div_eq_mul_div, mul_comm, mul_div_assoc, div_self (ne_of_gt hmaxW), mul_one]
  · have hdef : fitSize cfg img =
        (cfg.h * (cfg.logoSizePct / 100) * (img.width / img.height),
         cfg.h * (cfg.logoSizePct / 100)) := by
      simp only [fitSize, if_neg hfit]
    rw [hdef]
    have hlt : cfg.h * (cfg.logoSizePct / 100) * (img.width / img.height) <
        cfg.w * (cfg.logoSizePct / 100) := by
      rw [not_le] at hfit
      exact (lt_div_iff₀ ha).mp hfit
    refine ⟨hlt.le, le_refl _, fun hc => absurd hc hfit, fun _ => ⟨rfl, rfl⟩, ?_⟩
    rw [mul_comm, mul_div_assoc, div_self (ne_of_gt hmaxH), mul_one]

/-- Closed instance of `calculateLogoPosition_fit` on the default
1200×630 config at 25% with a 400×300 logo. -/
theorem calculateLogoPosition_fit_witness :
    (calculateLogoPosition
        ⟨"gradient", 1200, 630, "#ffffff", "#2563eb", "", "bottom", "#ffffff",
          36, "center", 25, "create"⟩ ⟨400, 300⟩).width ≤ 1200 * (25 / 100) ∧
    (calculateLogoPosition
        ⟨"gradient", 1200, 630, "#ffffff", "#2563eb", "", "bottom", "#ffffff",
          36, "center", 25, "create"⟩ ⟨400, 300⟩).height ≤ 630 * (25 / 100) := by
  have h := calculateLogoPosition_fit
    ⟨"gradient", 1200, 630, "#ffffff", "#2563eb", "", "bottom", "#ffffff",
      36, "center", 25, "create"⟩ ⟨400, 300⟩
    (by norm_num) (by norm_num) (by norm_num) (by norm_num) (by norm_num) (by norm_num)
  exact ⟨h.1, h.2.1⟩

/-- C5: with anchor `center` the placement is exactly centered on both axes:
`x = (w − logoWidth)/2` and `y = (h − logoHeight)/2` for the fitted logo
dimensions. -/
theorem calculateLogoPosition_center (cfg : Config) (img : Img)
    (hc : cfg.logoPos = "center") :
    (calculateLogoPosition cfg img).x =
      some ((cfg.w - (calculateLogoPosition cfg img).width) / 2) ∧
    (calculateLogoPosition cfg img).y =
      some ((cfg.h - (calculateLogoPosition cfg img).height) / 2) := by
  simp [calculateLogoPosition, hc]

/-- Closed instance of `calculateLogoPosition_center` on the default config
with a 400×300 logo. -/
theorem calculateLogoPosition_center_witness :
    (calculateLogoPosition
        ⟨"gradient", 1200, 630, "#ffffff", "#2563eb", "", "bottom", "#ffffff",
          36, "center", 25, "create"⟩ ⟨400, 300⟩).x =
      some ((1200 - (calculateLogoPosition
        ⟨"gradient", 1200, 630, "#ffffff", "#2563eb", "", "bottom", "#ffffff",
          36, "center", 25, "create"⟩ ⟨400, 300⟩).width) / 2) ∧
    (calculateLogoPosition
        ⟨"gradient", 1200, 630, "#ffffff", "#2563eb", "", "bottom", "#ffffff",
          36, "center", 25, "create"⟩ ⟨400, 300⟩).y =
      some ((630 - (calculateLogoPosition
        ⟨"gradient", 1200, 630, "#ffffff", "#2563eb", "", "bottom", "#ffffff",
          36, "center", 25, "create"⟩ ⟨400, 300⟩).height) / 2) :=
  calculateLogoPosition_center
    ⟨"gradient", 1200, 630, "#ffffff", "#2563eb", "", "bottom", "#ffffff",
      36, "center", 25, "create"⟩ ⟨400, 300⟩ rfl

/-- C9: for any `logoPos` outside the nine named anchors, the `switch` falls
through with no default branch, so `x` and `y` remain `undefined` (`none`),
while `width`/`height` are still the fitted logo size. -/
theorem calculateLogoPosition_unknown_anchor (cfg : Config) (img : Img)
    (h : cfg.logoPos ∉
      (["left-top", "top-middle", "right-top", "left-middle", "center",
        "right-middle", "left-bottom", "bottom-middle", "right-bottom"] :
        List String)) :
    (calculateLogoPosition cfg img).x = none ∧
    (calculateLogoPosition cfg img).y = none ∧
    (calculateLogoPosition cfg img).width = (fitSize cfg img).1 ∧
    (calculateLogoPosition cfg img).height = (fitSize cfg img).2 := by
  simp only [List.mem_cons, List.not_mem_nil, not_or, or_false] at h
  obtain ⟨h1, h2, h3, h4, h5, h6, h7, h8, h9⟩ := h
  simp [calculateLogoPosition, h1, h2, h3, h4, h5, h6, h7, h8, h9]

/-- Closed instance of `calculateLogoPosition_unknown_anchor` at the
unrecognised anchor string `"banana"`. -/
theorem calculateLogoPosition_unknown_anchor_witness :
    (calculateLogoPosition
        ⟨"gradient", 1200, 630, "#ffffff", "#2563eb", "", "bottom", "#ffffff",
          36, "banana", 25, "create"⟩ ⟨400, 300⟩).x = none ∧
    (calculateLogoPosition
        ⟨"gradient", 1200, 630, "#ffffff", "#2563eb", "", "bottom", "#ffffff",
          36, "banana", 25, "create"⟩ ⟨400, 300⟩).y = none ∧
    (calculateLogoPosition
        ⟨"gradient", 1200, 630, "#ffffff", "#2563eb", "", "bottom", "#ffffff",
          36, "banana", 25, "create"⟩ ⟨400, 300⟩).width =
      (fitSize ⟨"gradient", 1200, 630, "#ffffff", "#2563eb", "", "bottom", "#ffffff",
          36, "banana", 25, "create"⟩ ⟨400, 300⟩).1 ∧
    (calculateLogoPosition
        ⟨"gradient", 1200, 630, "#ffffff", "#2563eb", "", "bottom", "#ffffff",
          36, "banana", 25, "create"⟩ ⟨400, 300⟩).height =
      (fitSize ⟨"gradient", 1200, 630, "#ffffff", "#2563eb", "", "bottom", "#ffffff",
          36, "banana", 25, "create"⟩ ⟨400, 300⟩).2 :=
  calculateLogoPosition_unknown_anchor
    ⟨"gradient", 1200, 630, "#ffffff", "#2563eb", "", "bottom", "#ffffff",
      36, "banana", 25, "create"⟩ ⟨400, 300⟩ (by decide)

/-- The three generated background templates of `drawTemplateBackground`
(`bannerGenerator.js:74-109`): `solid`, `gradient`, and the checkerboard
`else` branch. -/
inductive TemplateKind
  | solid
  | gradient
  | checker
deriving DecidableEq, Repr

/-- What `drawBackground` (`bannerGenerator.js:57-67`) paints: either the
uploaded banner image stretched to the canvas, or a generated template. -/
inductive BgSource
  | uploadedImage
  | template (k : TemplateKind)
deriving DecidableEq, Repr

/-- One drawing step of `generateBanner`, in the order the canvas receives
it. -/
inductive DrawOp
  | background (src : BgSource)
  | text (s : String)
  | logo
deriving DecidableEq, Repr

/-- JavaScript truthiness of a string: the empty string is falsy. -/
def jsTruthyStr (s : String) : Bool := s != ""

/-- JavaScript truthiness of a nullable string: `null` and `""` are falsy. -/
def jsTruthy : Option String → Bool
  | none => false
  | some s => jsTruthyStr s

/-- The branch structure of `drawTemplateBackground`: `solid`, then
`gradient`, then the `else` checkerboard for every other template string. -/
def templateKind (t : String) : TemplateKind :=
  if t = "solid" then TemplateKind.solid
  else if t = "gradient" then TemplateKind.gradient
  else TemplateKind.checker

/-- The branch taken by `drawBackground` (`bannerGenerator.js:57-67`): the
uploaded image only when `config.mode === 'upload'` and the data URL is
truthy, otherwise the generated template. -/
def drawBackgroundSource (config : Config) (uploadedBannerDataURL : Option String) :
    BgSource :=
  if config.mode = "upload" ∧ jsTruthy uploadedBannerDataURL then BgSource.uploadedImage
  else BgSource.template (templateKind config.template)

/-- The sequence of drawing steps performed by `generateBanner`
(`bannerGenerator.js:23-48`): background, then text guarded by
`if (config.text)`, then logo. -/
def generateBannerTrace (config : Config) (uploadedBannerDataURL : Option String) :
    List DrawOp :=
  [DrawOp.background (drawBackgroundSource config uploadedBannerDataURL)]
    ++ (if jsTruthyStr config.text then [DrawOp.text config.text] else [])
    ++ [DrawOp.logo]

/-- C6: `generateBanner` always draws the background first and the logo
last; the logo occurs nowhere but last (so it sits on top of the text); the
text step occurs exactly when `config.text` is non-empty; and the trace has
three steps with text, two without. -/
theorem generateBanner_draw_order (cfg : Config) (u : Option String) :
    (generateBannerTrace cfg u).head? =
      some (DrawOp.background (drawBackgroundSource cfg u)) ∧
    (generateBannerTrace cfg u).getLast? = some DrawOp.logo ∧
    DrawOp.logo ∉ (generateBannerTrace cfg u).dropLast ∧
    (DrawOp.text cfg.text ∈ generateBannerTrace cfg u ↔ cfg.text ≠ "") ∧
    (generateBannerTrace cfg u).length = if cfg.text = "" then 2 else 3 := by
  by_cases ht : cfg.text = "" <;> simp [generateBannerTrace, jsTruthyStr, ht]

/-- C10: when `config.mode` is `'upload'` but no uploaded banner is present
(`null`), `drawBackground` falls back to the generated template background
chosen by `config.template` (solid / gradient / checker) rather than
painting the uploaded image. -/
theorem drawBackground_missing_upload_fallback (cfg : Config)
    (hmode : cfg.mode = "upload") :
    drawBackgroundSource cfg none = BgSource.template (templateKind cfg.template) ∧
    (cfg.template = "solid" →
      drawBackgroundSource cfg none = BgSource.template TemplateKind.solid) ∧
    (cfg.template = "gradient" →
      drawBackgroundSource cfg none = BgSource.template TemplateKind.gradient) ∧
    (cfg.template ≠ "solid" → cfg.template ≠ "gradient" →
      drawBackgroundSource cfg none = BgSource.template TemplateKind.checker) := by
  have hbase : drawBackgroundSource cfg none =
      BgSource.template (templateKind cfg.template) := by
    simp [drawBackgroundSource, jsTruthy]
  refine ⟨hbase, fun h => ?_, fun h => ?_, fun h1 h2 => ?_⟩
  · rw [hbase]
    simp [templateKind, h]
  · rw [hbase]
    simp [templateKind, h]
  · rw [hbase]
    simp [templateKind, h1, h2]

/-- Closed instance of `drawBackground_missing_upload_fallback` for an
upload-mode config with the `gradient` template and no uploaded image. -/
theorem drawBackground_missing_upload_fallback_witness :
    drawBackgroundSource
        ⟨"gradient", 1200, 630, "#ffffff", "#2563eb", "", "bottom", "#ffffff",
          36, "center", 25, "upload"⟩ none =
      BgSource.template (templateKind "gradient") ∧
    ((("gradient" : String) = "solid") →
      drawBackgroundSource
          ⟨"gradient", 1200, 630, "#ffffff", "#2563eb", "", "bottom", "#ffffff",
            36, "center", 25, "upload"⟩ none =
        BgSource.template TemplateKind.solid) ∧
    ((("gradient" : String) = "gradient") →
      drawBackgroundSource
          ⟨"gradient", 1200, 630, "#ffffff", "#2563eb", "", "bottom", "#ffffff",
            36, "center", 25, "upload"⟩ none =
        BgSource.template TemplateKind.gradient) ∧
    ((("gradient" : String) ≠ "solid") → (("gradient" : String) ≠ "gradient") →
      drawBackgroundSource
          ⟨"gradient", 1200, 630, "#ffffff", "#2563eb", "", "bottom", "#ffffff",
            36, "center", 25, "upload"⟩ none =
        BgSource.template TemplateKind.checker) :=
  drawBackground_missing_upload_fallback
    ⟨"gradient", 1200, 630, "#ffffff", "#2563eb", "", "bottom", "#ffffff",
      36, "center", 25, "upload"⟩ rfl

/-- The sampling of `extractDominantColor` (`logoProcessor.js:86`): the loop
advances the byte offset by 16 over the flat RGBA buffer, visiting every
fourth pixel (buffers from `getImageData` always hold whole pixels). -/
def sampleEvery4 : List Pixel → List Pixel
  | [] => []
  | p :: _ :: _ :: _ :: rest => p :: sampleEvery4 rest
  | p :: _ => [p]

/-- `Math.round(v / 10) * 10` on a byte channel (`logoProcessor.js:93-95`);
exact, because `Math.round` rounds half towards `+∞`. -/
def quantize10 (v : ℕ) : ℕ := ((v + 5) / 10) * 10

/-- One key update of the `colorCount` object
(`logoProcessor.js:99`): existing keys are bumped in place, fresh keys are
appended, mirroring a JS object's insertion-ordered string keys. -/
def bumpCount (key : ℕ × ℕ × ℕ) :
    List ((ℕ × ℕ × ℕ) × ℕ) → List ((ℕ × ℕ × ℕ) × ℕ)
  | [] => [(key, 1)]
  | (k, c) :: rest =>
    if k = key then (k, c + 1) :: rest else (k, c) :: bumpCount key rest

/-- The histogram loop of `extractDominantColor`
(`logoProcessor.js:86-100`): skip pixels with alpha below 128, quantize each
channel to the nearest multiple of 10, and count the buckets. -/
def colorHistogram (pixels : List Pixel) : List ((ℕ × ℕ × ℕ) × ℕ) :=
  pixels.foldl
    (fun acc p =>
      if p.a < 128 then acc
      else bumpCount (quantize10 p.r, quantize10 p.g, quantize10 p.b) acc)
    []

/-- `n.toString(16)` for a nonnegative JS number: lowercase hex digits. -/
def hexRepr (n : ℕ) : String := String.mk (Nat.toDigits 16 n)

/-- `s.padStart(2, '0')`. -/
def padStart2 (s : String) : String :=
  if s.length < 2 then String.mk (List.replicate (2 - s.length) '0') ++ s else s

/-- The hex encoding of a winning bucket (`logoProcessor.js:115`). -/
def hexColor (r g b : ℕ) : String :=
  "#" ++ padStart2 (hexRepr r) ++ padStart2 (hexRepr g) ++ padStart2 (hexRepr b)

/-- The selection loop of `extractDominantColor`
(`logoProcessor.js:102-117`): walk the buckets in insertion order, skip
near-white buckets (every quantized channel above 240), keep the strictly
highest count; start from the default blue `#1d4ed8` with count 0. -/
def selectDominant (histo : List ((ℕ × ℕ × ℕ) × ℕ)) : String :=
  (histo.foldl
    (fun (acc : String × ℕ) kv =>
      if 240 < kv.1.1 ∧ 240 < kv.1.2.1 ∧ 240 < kv.1.2.2 then acc
      else if acc.2 < kv.2 then (hexColor kv.1.1 kv.1.2.1 kv.1.2.2, kv.2) else acc)
    ("#1d4ed8", 0)).1

/-- `extractDominantColor` (`logoProcessor.js:68-124`) on a decoded pixel
grid: sample, histogram, then pick the dominant non-near-white bucket. -/
def extractDominantColor (img : List Pixel) : String :=
  selectDominant (colorHistogram (sampleEvery4 img))

/-- A 40-pixel image whose sampled pixels (every 4th) are 90% near-white
`(250,250,250)` and 10% pure blue `(0,0,255)`, all fully opaque. -/
def blueWhiteScenario : List Pixel :=
  List.replicate 36 ⟨250, 250, 250, 255⟩ ++ List.replicate 4 ⟨0, 0, 255, 255⟩

/-- C7: on the 90% near-white / 10% blue scenario the sampled pixels are
nine near-white and one blue; the near-white bucket `(250,250,250)` is
excluded by the 240 floor while the blue bucket — quantized to `(0,0,260)`
since `Math.round(255/10)*10 = 260` — is not; and the extractor returns the
hex encoding of that winning blue bucket (the string `"#0000104"`, not the
near-white bucket's encoding and not the fallback blue). -/
theorem extractDominantColor_blue_scenario :
    sampleEvery4 blueWhiteScenario =
      List.replicate 9 ⟨250, 250, 250, 255⟩ ++ [⟨0, 0, 255, 255⟩] ∧
    colorHistogram (sampleEvery4 blueWhiteScenario) =
      [((250, 250, 250), 9), ((0, 0, 260), 1)] ∧
    (240 < quantize10 250 ∧ (quantize10 0, quantize10 0, quantize10 255) = (0, 0, 260)) ∧
    extractDominantColor blueWhiteScenario = hexColor 0 0 260 ∧
    extractDominantColor blueWhiteScenario = "#0000104" ∧
    extractDominantColor blueWhiteScenario ≠ hexColor 250 250 250 ∧
    extractDominantColor blueWhiteScenario ≠ "#1d4ed8" := by
  refine ⟨by decide, by decide, by decide, by decide, by decide, by decide, by decide⟩

/-- ASCII lowercasing: the case folding the regex flag `i` performs on the
pattern's ASCII letters (JS regex canonicalisation never folds a non-ASCII
character onto an ASCII one). -/
def asciiLower (c : Char) : Char :=
  if 65 ≤ c.toNat ∧ c.toNat ≤ 90 then Char.ofNat (c.toNat + 32) else c

/-- Case folding of a whole string, character by character. -/
def lowerAscii (s : String) : String := s.map asciiLower

/-- The test `/^image\/(png|jpe?g)$/i.test(file.type)` of
`logoProcessor.js:30`: the anchored regex accepts exactly the strings
`image/png`, `image/jpeg` and `image/jpg` up to ASCII case. -/
def mimeTypeAllowed (s : String) : Bool :=
  decide (lowerAscii s = "image/png" ∨ lowerAscii s = "image/jpeg" ∨
    lowerAscii s = "image/jpg")

/-- A user-supplied file: a declared media type plus raw content bytes. -/
structure JsFile where
  type : String
  bytes : List ℕ
deriving DecidableEq, Repr

/-- The validation prefix of `loadLogo` (`logoProcessor.js:28-32`): the
media-type test runs before the `FileReader` is even constructed, so a
failure throws the unsupported-format error without touching the bytes. -/
def loadLogoValidate (f : JsFile) : Except String Unit :=
  if mimeTypeAllowed f.type then Except.ok ()
  else Except.error "Please upload PNG/JPG format only"

/-- C8: `loadLogo` fails with the unsupported-format error exactly when the
declared media type is not `image/png` / `image/jpeg` / `image/jpg` up to
ASCII case, and the validation outcome depends only on the declared type —
never on the file's bytes, which are not read. -/
theorem loadLogo_format_gate (f : JsFile) :
    (loadLogoValidate f = Except.error "Please upload PNG/JPG format only" ↔
      ¬ (lowerAscii f.type = "image/png" ∨ lowerAscii f.type = "image/jpeg" ∨
         lowerAscii f.type = "image/jpg")) ∧
    (∀ bs : List ℕ, loadLogoValidate ⟨f.type, bs⟩ = loadLogoValidate f) := by
  constructor
  · unfold loadLogoValidate mimeTypeAllowed
    split_ifs with hcond
    · rw [decide_eq_true_eq] at hcond
      simp [hcond]
    · rw [decide_eq_true_eq] at hcond
      simp [hcond]
  · intro bs
    rfl

end LogoBanner
